import Mathlib

/-!
Verification of the EchoLoop back-translation practice app.

Shallow embedding of the repository's code:
* `src/api/webdav-sync.ts` — the WebDAV proxy endpoint (`WebDav.handler`);
* `src/App.tsx11` — the React app state and its workflow handlers
  (`handleStartPractice`, `handleSubmitBackTranslation`, `handleReset`,
  `handleImportData`) and the localStorage persistence effects;
* the Gemini service module (`generateTargetTranslation` post-processing);
* `src/unnamed/part_000` (the LibraryModal component) — vocabulary review
  navigation (`nextCard` / `prevCard`) and import merging.

JavaScript values flowing through JSON are modelled by the `Json` inductive
type.  JSON numbers are modelled as integers (floating point is outside the
model).  `JSON.stringify` is modelled by `Json.render` (compact) and
`Json.renderPretty` (the `JSON.stringify(x, null, 2)` form used by the proxy),
`JSON.parse` by the executable parser `Json.parse`.  `Buffer.from(s).toString`
with base64 is modelled by `base64Encode` over the UTF-8 bytes of `s`.
-/

set_option maxRecDepth 8192

/-- A JavaScript/JSON value.  `num` carries an integer: JSON float literals
are outside the model (floating point is not modelled). -/
inductive Json where
  | null
  | bool (b : Bool)
  | num (n : Int)
  | str (s : String)
  | arr (items : List Json)
  | obj (fields : List (String × Json))

/-- Hex digit characters, lowercase, as produced by JS string escapes. -/
def hexDigit (n : Nat) : Char := "0123456789abcdef".data.getD n '0'

/-- JSON escaping of a single character, as performed by `JSON.stringify`
on members of a string. -/
def escChar (c : Char) : String :=
  if c = '"' then "\\\""
  else if c = '\\' then "\\\\"
  else if c.toNat = 8 then "\\b"
  else if c.toNat = 9 then "\\t"
  else if c.toNat = 10 then "\\n"
  else if c.toNat = 12 then "\\f"
  else if c.toNat = 13 then "\\r"
  else if c.toNat < 32 then "\\u00" ++ String.mk [hexDigit (c.toNat / 16), hexDigit (c.toNat % 16)]
  else String.mk [c]

/-- JSON escaping of a whole string (body only, no surrounding quotes). -/
def escString (s : String) : String := String.join (s.data.map escChar)

/-- A JSON string literal: quotes around the escaped body. -/
def qstr (s : String) : String := "\"" ++ escString s ++ "\""

mutual
/-- Compact `JSON.stringify(v)`: no whitespace, `,` and `:` separators. -/
def Json.render : Json → String
  | .null => "null"
  | .bool b => if b then "true" else "false"
  | .num n => toString n
  | .str s => qstr s
  | .arr xs => "[" ++ Json.renderItems xs ++ "]"
  | .obj fs => "\x7b" ++ Json.renderFields fs ++ "\x7d"
/-- Comma-separated compact rendering of array items. -/
def Json.renderItems : List Json → String
  | [] => ""
  | [x] => Json.render x
  | x :: y :: xs => Json.render x ++ "," ++ Json.renderItems (y :: xs)
/-- Comma-separated compact rendering of object members. -/
def Json.renderFields : List (String × Json) → String
  | [] => ""
  | [(k, v)] => qstr k ++ ":" ++ Json.render v
  | (k, v) :: f :: fs => qstr k ++ ":" ++ Json.render v ++ "," ++ Json.renderFields (f :: fs)
end

/-- `n` space characters, for `JSON.stringify` indentation. -/
def spaces (n : Nat) : String := String.mk (List.replicate n ' ')

mutual
/-- `JSON.stringify(v, null, 2)` at indentation level `ind`: two-space
indentation, newline-separated members, `": "` after keys. -/
def Json.renderP (ind : Nat) : Json → String
  | .null => "null"
  | .bool b => if b then "true" else "false"
  | .num n => toString n
  | .str s => qstr s
  | .arr [] => "[]"
  | .arr (x :: xs) =>
      "[\n" ++ Json.renderPItems (ind + 2) (x :: xs) ++ "\n" ++ spaces ind ++ "]"
  | .obj [] => "\x7b\x7d"
  | .obj (f :: fs) =>
      "\x7b\n" ++ Json.renderPFields (ind + 2) (f :: fs) ++ "\n" ++ spaces ind ++ "\x7d"
/-- Pretty rendering of array items, one per line at indentation `ind`. -/
def Json.renderPItems (ind : Nat) : List Json → String
  | [] => ""
  | [x] => spaces ind ++ Json.renderP ind x
  | x :: y :: xs => spaces ind ++ Json.renderP ind x ++ ",\n" ++ Json.renderPItems ind (y :: xs)
/-- Pretty rendering of object members, one per line at indentation `ind`. -/
def Json.renderPFields (ind : Nat) : List (String × Json) → String
  | [] => ""
  | [(k, v)] => spaces ind ++ qstr k ++ ": " ++ Json.renderP ind v
  | (k, v) :: f :: fs =>
      spaces ind ++ qstr k ++ ": " ++ Json.renderP ind v ++ ",\n" ++ Json.renderPFields ind (f :: fs)
end

/-- `JSON.stringify(v, null, 2)`, the serialization used by the WebDAV proxy
for upstream PUT bodies. -/
def Json.renderPretty (v : Json) : String := Json.renderP 0 v

/-- The JSON whitespace characters recognized by `JSON.parse`. -/
def isJsonWs (c : Char) : Bool := c = ' ' || c = '\t' || c = '\n' || c = '\r'

/-- Drop leading JSON whitespace. -/
def skipWs (cs : List Char) : List Char := cs.dropWhile isJsonWs

/-- Value of a hex digit character, if any. -/
def hexVal (c : Char) : Option Nat :=
  if 48 ≤ c.toNat ∧ c.toNat ≤ 57 then some (c.toNat - 48)
  else if 97 ≤ c.toNat ∧ c.toNat ≤ 102 then some (c.toNat - 87)
  else if 65 ≤ c.toNat ∧ c.toNat ≤ 70 then some (c.toNat - 55)
  else none

/-- Parse the body of a JSON string literal (after the opening quote),
handling the escape sequences of `JSON.parse`.  `acc` is the reversed
prefix already read. -/
def parseStrAux : List Char → List Char → Option (String × List Char)
  | '"' :: rest, acc => some (String.mk acc.reverse, rest)
  | '\\' :: '"' :: r, acc => parseStrAux r ('"' :: acc)
  | '\\' :: '\\' :: r, acc => parseStrAux r ('\\' :: acc)
  | '\\' :: '/' :: r, acc => parseStrAux r ('/' :: acc)
  | '\\' :: 'b' :: r, acc => parseStrAux r (Char.ofNat 8 :: acc)
  | '\\' :: 'f' :: r, acc => parseStrAux r (Char.ofNat 12 :: acc)
  | '\\' :: 'n' :: r, acc => parseStrAux r ('\n' :: acc)
  | '\\' :: 'r' :: r, acc => parseStrAux r (Char.ofNat 13 :: acc)
  | '\\' :: 't' :: r, acc => parseStrAux r ('\t' :: acc)
  | '\\' :: 'u' :: a :: b :: c :: d :: r, acc =>
      match hexVal a, hexVal b, hexVal c, hexVal d with
      | some x, some y, some z, some w =>
          parseStrAux r (Char.ofNat (((x * 16 + y) * 16 + z) * 16 + w) :: acc)
      | _, _, _, _ => none
  | '\\' :: _, _ => none
  | c :: rest, acc => parseStrAux rest (c :: acc)
  | [], _ => none

/-- Parse a run of decimal digits into its value; fails on an empty run
and on a leading zero followed by more digits (as `JSON.parse` does). -/
def parseDigits (cs : List Char) : Option (Nat × List Char) :=
  let ds := cs.takeWhile Char.isDigit
  let rest := cs.dropWhile Char.isDigit
  match ds with
  | [] => none
  | ['0'] => some (0, rest)
  | '0' :: _ :: _ => none
  | _ => some (ds.foldl (fun n c => n * 10 + (c.toNat - 48)) 0, rest)

/-- Opening curly brace character. -/
def lcurly : Char := Char.ofNat 123

/-- Closing curly brace character. -/
def rcurly : Char := Char.ofNat 125

mutual
/-- Fuel-indexed JSON value parser, modelling `JSON.parse`.  Returns the
value and the unconsumed suffix.  Number literals are restricted to
(optionally signed) integers; see the note on `Json.num`. -/
def parseV : Nat → List Char → Option (Json × List Char)
  | 0, _ => none
  | Nat.succ fuel, cs =>
    match skipWs cs with
    | 'n' :: 'u' :: 'l' :: 'l' :: r => some (.null, r)
    | 't' :: 'r' :: 'u' :: 'e' :: r => some (.bool true, r)
    | 'f' :: 'a' :: 'l' :: 's' :: 'e' :: r => some (.bool false, r)
    | '"' :: r =>
        match parseStrAux r [] with
        | some (s, r') => some (.str s, r')
        | none => none
    | '[' :: r =>
        match skipWs r with
        | ']' :: r' => some (.arr [], r')
        | r' =>
            match parseElems fuel r' with
            | some (xs, r'') => some (.arr xs, r'')
            | none => none
    | '-' :: r =>
        match parseDigits r with
        | some (n, r') => some (.num (-(n : Int)), r')
        | none => none
    | c :: r =>
        if c = lcurly then
          match skipWs r with
          | c' :: r' =>
              if c' = rcurly then some (.obj [], r')
              else
                match parseMembers fuel (c' :: r') with
                | some (fs, r'') => some (.obj fs, r'')
                | none => none
          | [] => none
        else if c.isDigit then
          match parseDigits (c :: r) with
          | some (n, r') => some (.num (n : Int), r')
          | none => none
        else none
    | [] => none
/-- Parse the elements of a non-empty JSON array, up to and including the
closing bracket. -/
def parseElems : Nat → List Char → Option (List Json × List Char)
  | 0, _ => none
  | Nat.succ fuel, cs =>
    match parseV fuel cs with
    | none => none
    | some (v, rest) =>
        match skipWs rest with
        | ',' :: r =>
            match parseElems fuel r with
            | some (xs, r') => some (v :: xs, r')
            | none => none
        | ']' :: r => some ([v], r)
        | _ => none
/-- Parse the members of a non-empty JSON object, up to and including the
closing brace. -/
def parseMembers : Nat → List Char → Option (List (String × Json) × List Char)
  | 0, _ => none
  | Nat.succ fuel, cs =>
    match skipWs cs with
    | '"' :: r =>
        match parseStrAux r [] with
        | none => none
        | some (k, r') =>
            match skipWs r' with
            | ':' :: r'' =>
                match parseV fuel r'' with
                | none => none
                | some (v, rest) =>
                    match skipWs rest with
                    | ',' :: r3 =>
                        match parseMembers fuel r3 with
                        | some (fs, r4) => some ((k, v) :: fs, r4)
                        | none => none
                    | c :: r3 => if c = rcurly then some ([(k, v)], r3) else none
                    | [] => none
            | _ => none
    | _ => none
end

/-- `JSON.parse(s)`: `none` models a thrown `SyntaxError`. -/
def Json.parse (s : String) : Option Json :=
  match parseV (2 * s.length + 2) s.data with
  | some (v, rest) => if skipWs rest = [] then some v else none
  | none => none

/-- UTF-8 encoding of one character, as a list of byte values. -/
def utf8EncodeChar (c : Char) : List Nat :=
  let n := c.toNat
  if n < 128 then [n]
  else if n < 2048 then [192 + n / 64, 128 + n % 64]
  else if n < 65536 then [224 + n / 4096, 128 + (n / 64) % 64, 128 + n % 64]
  else [240 + n / 262144, 128 + (n / 4096) % 64, 128 + (n / 64) % 64, 128 + n % 64]

/-- UTF-8 bytes of a string, as produced by `Buffer.from(s)`. -/
def utf8Bytes (s : String) : List Nat := s.data.flatMap utf8EncodeChar

/-- The base64 alphabet. -/
def b64Alphabet : String :=
  "ABCDEFGHIJKLMNOPQRSTUVWXYZabcdefghijklmnopqrstuvwxyz0123456789+/"

/-- Character of a 6-bit group. -/
def b64Char (n : Nat) : Char := b64Alphabet.data.getD n '='

/-- Standard base64 encoding with `=` padding, as produced by
`Buffer.toString` with base64. -/
def base64Encode : List Nat → String
  | [] => ""
  | [a] => String.mk [b64Char (a / 4), b64Char (a % 4 * 16), '=', '=']
  | [a, b] => String.mk [b64Char (a / 4), b64Char (a % 4 * 16 + b / 16), b64Char (b % 16 * 4), '=']
  | a :: b :: c :: rest =>
      String.mk [b64Char (a / 4), b64Char (a % 4 * 16 + b / 16),
                 b64Char (b % 16 * 4 + c / 64), b64Char (c % 64)] ++ base64Encode rest

/-- JavaScript `%` (remainder, sign of the dividend) on integers, for a
positive modulus. -/
def jsMod (a b : Int) : Int := if 0 ≤ a then a % b else -((-a) % b)

/-- JavaScript falsiness of a JSON-representable value. -/
def jsFalsy : Json → Bool
  | .null => true
  | .bool b => !b
  | .num n => n = 0
  | .str s => s = ""
  | _ => false

/-- Property lookup `v[k]` on a JS value: first matching key of an object,
`undefined` (`none`) otherwise. -/
def jLookup (v : Json) (k : String) : Option Json :=
  match v with
  | .obj fs => (fs.find? (fun f => f.1 = k)).map (·.2)
  | _ => none

namespace WebDav

/-- The `webdav` object of a sync request (`WebDavConfig` in
`src/api/webdav-sync.ts`).  A field that is absent in the JS object is
modelled as `""`; the handler's falsiness checks treat the two alike. -/
structure WebDavCfg where
  url : String
  username : String
  password : String
  deriving DecidableEq

/-- The parsed request body (`SyncRequestBody`).  `action` is `none` when the
field is absent (any non-string value also falls through to the invalid-action
branch, so it is not modelled separately); `data := none` models an absent or
`undefined` field, `some .null` an explicit JSON null. -/
structure SyncBody where
  action : Option String
  webdav : Option WebDavCfg
  data : Option Json

/-- An incoming HTTP request as seen by the handler.  Only `req.method` and
`req.body` are ever read by the source; `headers` records that the handler
consults no header (in particular no credential) of its own caller.
`method := ""` models an absent method (the source defaults it to `"GET"`).
`body := none` models a falsy `req.body` (the source replaces it by `{}`). -/
structure Request where
  method : String
  body : Option SyncBody
  headers : List (String × String)

/-- The outcome the environment provides for an upstream `fetch`: either a
response (with `ok`, `status`, `statusText` and body text) or a rejected
promise carrying an error message. -/
inductive UpstreamResult where
  | resp (ok : Bool) (status : Int) (statusText : String) (text : String)
  | netErr (message : String)

/-- One upstream HTTP request issued by the proxy. -/
structure UpstreamCall where
  method : String
  url : String
  headers : List (String × String)
  body : Option String
  deriving DecidableEq

/-- One response written by the handler (status code and JSON body; every
branch of the source also sets `Content-Type: application/json`). -/
structure ResWrite where
  status : Nat
  body : Json

/-- Everything observable about one run of the handler: the upstream requests
issued, in order, and the responses written, in order. -/
structure HandlerOut where
  calls : List UpstreamCall
  writes : List ResWrite

/-- A JSON error body, `{ error: msg }`. -/
def errBody (msg : String) : Json := .obj [("error", .str msg)]

/-- The `Authorization` header value built by the handler:
`'Basic ' + Buffer.from(username + ':' + password).toString('base64')`. -/
def basicAuth (username password : String) : String :=
  "Basic " ++ base64Encode (utf8Bytes (username ++ ":" ++ password))

/-- `error?.message || 'WebDAV proxy error'` in the catch-all branch. -/
def jsErrMessage (m : String) : String := if m = "" then "WebDAV proxy error" else m

/-- `data ?? {}`: nullish coalescing replaces an absent or null `data` by the
empty object. -/
def dataOrEmpty : Option Json → Json
  | none => .obj []
  | some .null => .obj []
  | some j => j

/-- The body of the handler of `src/api/webdav-sync.ts`, as a function of the
only request components it reads (`req.method`, `req.body`) and of the
upstream fetch outcome.  Thrown errors are routed to the shared catch branch
(status 500) exactly as in the source. -/
def handlerOn (method0 : String) (body? : Option SyncBody) (up : UpstreamResult) : HandlerOut :=
  let method := if method0 = "" then "GET" else method0
  if method ≠ "POST" then
    ⟨[], [⟨405, errBody "Method not allowed"⟩]⟩
  else
    let body := body?.getD ⟨none, none, none⟩
    match body.webdav with
    | none => ⟨[], [⟨400, errBody "Missing WebDAV configuration"⟩]⟩
    | some cfg =>
      if cfg.url = "" || cfg.username = "" || cfg.password = "" then
        ⟨[], [⟨400, errBody "Missing WebDAV configuration"⟩]⟩
      else
        let auth := basicAuth cfg.username cfg.password
        if body.action = some "push" then
          let call : UpstreamCall :=
            ⟨"PUT", cfg.url,
             [("Authorization", auth), ("Content-Type", "application/json")],
             some (Json.renderPretty (dataOrEmpty body.data))⟩
          match up with
          | .resp ok status statusText _ =>
              if ok then ⟨[call], [⟨200, .obj [("success", .bool true)]⟩]⟩
              else ⟨[call], [⟨500, errBody ("WebDAV upload failed: " ++ toString status ++ " " ++ statusText)⟩]⟩
          | .netErr m => ⟨[call], [⟨500, errBody (jsErrMessage m)⟩]⟩
        else if body.action = some "pull" then
          let call : UpstreamCall := ⟨"GET", cfg.url, [("Authorization", auth)], none⟩
          match up with
          | .resp ok status statusText text =>
              if ok then
                match Json.parse text with
                | some j => ⟨[call], [⟨200, .obj [("success", .bool true), ("data", j)]⟩]⟩
                | none => ⟨[call], [⟨500, errBody "Invalid JSON from WebDAV"⟩]⟩
              else ⟨[call], [⟨500, errBody ("WebDAV download failed: " ++ toString status ++ " " ++ statusText)⟩]⟩
          | .netErr m => ⟨[call], [⟨500, errBody (jsErrMessage m)⟩]⟩
        else ⟨[], [⟨400, errBody "Invalid action"⟩]⟩

/-- The exported handler: destructures the request and delegates.  The
endpoint keeps no state across requests, so a run is a pure function of the
request and the upstream outcome. -/
def handler (req : Request) (up : UpstreamResult) : HandlerOut :=
  handlerOn req.method req.body up

/-- The webdav config is missing or incomplete in the sense of the source's
check `!webdav || !webdav.url || !webdav.username || !webdav.password`. -/
def webdavMissing : Option WebDavCfg → Bool
  | none => true
  | some c => c.url = "" || c.username = "" || c.password = ""

end WebDav

/-- The `AppStep` enum of `src/types.ts`. -/
inductive AppStep where
  | INPUT_SOURCE
  | TRANSLATING_TO_TARGET
  | PRACTICE_BACK_TRANSLATION
  | ANALYZING
  | RESULTS
  deriving DecidableEq

/-- An `Improvement` of `src/types.ts`; the `type` union is modelled as a
string. -/
structure Improvement where
  segment : String
  meaning : String
  userVersion : String
  betterAlternative : String
  reason : String
  type : String
  deriving DecidableEq

/-- An `AnalysisResult` of `src/types.ts` (`score` is a JS number, modelled
as an integer). -/
structure AnalysisResult where
  score : Int
  summary : String
  strengths : List String
  improvements : List Improvement
  deriving DecidableEq

/-- A `HistoryItem` of `src/types.ts`. -/
structure HistoryItem where
  id : String
  sourceText : String
  userBackTranslation : String
  score : Int
  summary : String
  timestamp : Int
  deriving DecidableEq

/-- A `VocabularyItem` of `src/types.ts` (`context` and `meaning` are
optional). -/
structure VocabularyItem where
  id : String
  original : String
  better : String
  reason : String
  context : Option String
  meaning : Option String
  timestamp : Int
  deriving DecidableEq

/-- An `AIConfig` of `src/types.ts`; the provider union is modelled as a
string. -/
structure AIConfig where
  useCustom : Bool
  selectedPresetId : String
  customBaseUrl : Option String
  customApiKey : Option String
  customModelName : Option String
  provider : Option String
  customAnalysisPrompt : Option String
  deriving DecidableEq

/-- `DEFAULT_CONFIG` of `src/App.tsx11`. -/
def DEFAULT_CONFIG : AIConfig :=
  ⟨false, "gemini-2.5-flash", some "", some "", some "gemini-2.5-flash", some "gemini", none⟩

/-- Head of the accumulated sentence is a sentence-ending punctuation mark,
i.e. the character just before the current position is `.`, `!` or `?`. -/
def sentEndHead : List Char → Bool
  | p :: _ => p = '.' || p = '!' || p = '?'
  | [] => false

/-- The split of `generateTargetTranslation`:
`sourceText.split(/(?<=[.!?])\s+/)`.  A maximal whitespace run preceded by
`.`, `!` or `?` separates sentences.  `cur` holds the reversed characters of
the segment being read.  The fuel argument (at least the length of the
remaining input, which shrinks at every step) keeps the recursion
structural. -/
def splitRaw : Nat → List Char → List Char → List String
  | _, [], cur => [String.mk cur.reverse]
  | 0, cs, cur => [String.mk (cur.reverse ++ cs)]
  | Nat.succ fuel, c :: rest, cur =>
    if c.isWhitespace && sentEndHead cur then
      String.mk cur.reverse :: splitRaw fuel (rest.dropWhile Char.isWhitespace) []
    else
      splitRaw fuel rest (c :: cur)

/-- `s.trim()`: strip leading and trailing whitespace (ASCII whitespace in
the model). -/
def jsTrim (s : String) : String :=
  String.mk (((s.data.dropWhile Char.isWhitespace).reverse.dropWhile
    Char.isWhitespace).reverse)

/-- `englishSentences` in `generateTargetTranslation`: split into sentences,
trim each, drop the empty ones. -/
def englishSentencesOf (s : String) : List String :=
  ((splitRaw s.data.length s.data []).map jsTrim).filter (fun t => t ≠ "")

/-- Backtick character. -/
def btick : Char := Char.ofNat 96

/-- Drop one leading newline, if present. -/
def dropNl : List Char → List Char
  | '\n' :: r => r
  | r => r

/-- Dropping one leading newline never lengthens a list. -/
theorem dropNl_length_le (l : List Char) : (dropNl l).length ≤ l.length := by
  unfold dropNl
  split
  · simp
  · exact Nat.le_refl _

/-- `jsonString.replace(/```json\n?|```/g, '')`: remove every occurrence of
a code fence, preferring the longer `json`-tagged form (with its optional
trailing newline) exactly as the regex alternation does.  The fuel argument
(at least the length of the remaining input) keeps the recursion
structural. -/
def stripFencesAux : Nat → List Char → List Char
  | _, [] => []
  | 0, cs => cs
  | Nat.succ fuel, c :: b2 :: b3 :: r2 =>
      if c = btick && b2 = btick && b3 = btick then
        if ['j', 's', 'o', 'n'].isPrefixOf r2 then
          stripFencesAux fuel (dropNl (r2.drop 4))
        else
          stripFencesAux fuel r2
      else c :: stripFencesAux fuel (b2 :: b3 :: r2)
  | Nat.succ fuel, c :: rest => c :: stripFencesAux fuel rest

/-- The fence-stripping-and-trim cleanup applied to the model's reply text
before `JSON.parse` in `generateTargetTranslation`. -/
def stripFences (s : String) : String := jsTrim (String.mk (stripFencesAux s.data.length s.data))

/-- `x || ''`: a falsy value is replaced by the empty string, any other value
is kept as it is (`undefined` is modelled by `none`). -/
def jsOrEmptyStr : Option Json → Json
  | none => .str ""
  | some j => if jsFalsy j then .str "" else j

/-- One entry of the `sentencePairs` mapping in `generateTargetTranslation`:
field-wise `typeof` checks with the source's fallbacks (`idx + 1`, the
`idx`-th split sentence, the empty string). -/
def sentencePairValue (englishSentences : List String) (idx : Nat) (p : Json) : Json :=
  .obj
    [("index", match jLookup p "index" with
               | some (.num n) => .num n
               | _ => .num ((idx : Int) + 1)),
     ("source", match jLookup p "source" with
                | some (.str s) => .str s
                | _ => .str (englishSentences.getD idx "")),
     ("target", match jLookup p "target" with
                | some (.str s) => .str s
                | _ => .str "")]

/-- The value `generateTargetTranslation` resolves with, given the source
text and the raw reply text of the AI model: strip code fences, parse the
JSON, then assemble `{ fullTranslation, sentencePairs }`.  `none` models the
function throwing (a parse failure is rethrown as
`'Failed to generate translation.'`), which the caller catches. -/
def serviceReplyValue (sourceText aiText : String) : Option Json :=
  match Json.parse (stripFences aiText) with
  | none => none
  | some parsed =>
    let englishSentences := englishSentencesOf sourceText
    let fullTranslation := jsOrEmptyStr (jLookup parsed "fullTranslation")
    let rawPairs := match jLookup parsed "sentencePairs" with
                    | some (.arr xs) => xs
                    | _ => []
    some (.obj
      [("fullTranslation", fullTranslation),
       ("sentencePairs", .arr (rawPairs.enum.map
          (fun e => sentencePairValue englishSentences e.1 e.2)))])

/-- The component-local state of the LibraryModal (`src/unnamed/part_000`). -/
structure LibState where
  activeTab : String
  searchTerm : String
  isReviewMode : Bool
  reviewIndex : Int
  isFlipped : Bool
  reviewInput : String
  deriving DecidableEq

/-- The `useState` cells of the `App` component of `src/App.tsx11`, plus the
LibraryModal's local state.  `translatedText` is kept as an untyped JS value
(`Json`): `useState('')` starts it as a string, but `setTranslatedText` is
handed whatever `generateTargetTranslation` resolves with. -/
structure AppState where
  step : AppStep
  sourceText : String
  nativeLanguage : String
  translatedText : Json
  backTranslation : String
  analysis : Option AnalysisResult
  error : Option String
  isGeneratingContent : Bool
  selectedTopic : String
  selectedDifficulty : String
  showSettings : Bool
  aiConfig : AIConfig
  settingsTab : String
  connectionStatus : String
  showLibrary : Bool
  history : List HistoryItem
  vocabulary : List VocabularyItem
  recentlySavedVocab : List String
  library : LibState

/-- The initial LibraryModal state. -/
def initialLibState : LibState := ⟨"vocabulary", "", false, 0, false, ""⟩

/-- The initial app state with empty persisted data: the `useState` initial
values of `src/App.tsx11` (`LANGUAGES[0].id`, `TOPICS[0]`, `DIFFICULTIES[1]`,
`DEFAULT_CONFIG`, ...). -/
def initialState : AppState :=
  ⟨.INPUT_SOURCE, "", "Simplified Chinese", .str "", "", none, none,
   false, "General Life", "Intermediate (B1/B2)", false, DEFAULT_CONFIG,
   "preset", "idle", false, [], [], [], initialLibState⟩

/-- What the environment supplies to one run of `handleStartPractice`: the
raw reply text of the AI model, or a failure of the call itself (network or
API error), which `generateTargetTranslation` turns into a thrown error. -/
inductive TransOutcome where
  | reply (text : String)
  | fail

/-- `handleStartPractice` of `src/App.tsx11`, as a function of the current
state and the translation outcome.  Returns the new state and the trace of
`setStep` calls, in order.  A blank source text returns without any state
change. -/
def handleStartPractice (s : AppState) (o : TransOutcome) : AppState × List AppStep :=
  if jsTrim s.sourceText = "" then (s, [])
  else
    match o with
    | .reply text =>
      match serviceReplyValue s.sourceText text with
      | some v =>
          ({ s with error := none, translatedText := v, step := .PRACTICE_BACK_TRANSLATION },
           [.TRANSLATING_TO_TARGET, .PRACTICE_BACK_TRANSLATION])
      | none =>
          ({ s with error := some "Failed to generate translation. Please check your configuration and connection.",
                    step := .INPUT_SOURCE },
           [.TRANSLATING_TO_TARGET, .INPUT_SOURCE])
    | .fail =>
        ({ s with error := some "Failed to generate translation. Please check your configuration and connection.",
                  step := .INPUT_SOURCE },
         [.TRANSLATING_TO_TARGET, .INPUT_SOURCE])

/-- What the environment supplies to one run of `handleSubmitBackTranslation`:
a parsed `AnalysisResult`, or a thrown error. -/
inductive AnalysisOutcome where
  | ok (r : AnalysisResult)
  | fail

/-- `handleSubmitBackTranslation` of `src/App.tsx11` (with the inlined
`addToHistory`; `now` models `Date.now()`).  Returns the new state and the
trace of `setStep` calls.  A blank back-translation returns without any
state change. -/
def handleSubmitBackTranslation (s : AppState) (o : AnalysisOutcome) (now : Int) :
    AppState × List AppStep :=
  if jsTrim s.backTranslation = "" then (s, [])
  else
    match o with
    | .ok r =>
        let newItem : HistoryItem :=
          ⟨toString now, s.sourceText, s.backTranslation, r.score, r.summary, now⟩
        ({ s with error := none, analysis := some r, history := newItem :: s.history,
                  step := .RESULTS, recentlySavedVocab := [] },
         [.ANALYZING, .RESULTS])
    | .fail =>
        ({ s with error := some "Failed to analyze your translation. Check your configuration.",
                  step := .PRACTICE_BACK_TRANSLATION },
         [.ANALYZING, .PRACTICE_BACK_TRANSLATION])

/-- `handleReset` of `src/App.tsx11`. -/
def handleReset (s : AppState) : AppState :=
  { s with step := .INPUT_SOURCE, sourceText := "", translatedText := .str "",
           backTranslation := "", analysis := none, error := none }

/-- The merge performed by `handleImportData` on each of the two lists: keep
every existing item and prepend the imported items whose id is not already
present. -/
def mergeById (idOf : α → String) (imported prev : List α) : List α :=
  let existingIds := prev.map idOf
  (imported.filter (fun x => !(existingIds.contains (idOf x)))) ++ prev

/-- `handleImportData` of `src/App.tsx11`. -/
def handleImportData (s : AppState) (importedHistory : List HistoryItem)
    (importedVocabulary : List VocabularyItem) : AppState :=
  { s with history := mergeById HistoryItem.id importedHistory s.history,
           vocabulary := mergeById VocabularyItem.id importedVocabulary s.vocabulary }

/-- Browser `localStorage`, as a partial map from keys to stored strings. -/
def LocalStorage := String → Option String

/-- `localStorage.setItem`. -/
def setItem (ls : LocalStorage) (k v : String) : LocalStorage :=
  fun k' => if k' = k then some v else ls k'

/-- A key-value member for an optional string field: `JSON.stringify` omits
properties whose value is `undefined`. -/
def optStrField (k : String) : Option String → List (String × Json)
  | none => []
  | some s => [(k, .str s)]

/-- The JS object for a `HistoryItem`, with the property order of
`addToHistory`. -/
def HistoryItem.toJson (h : HistoryItem) : Json :=
  .obj [("id", .str h.id), ("sourceText", .str h.sourceText),
        ("userBackTranslation", .str h.userBackTranslation),
        ("score", .num h.score), ("summary", .str h.summary),
        ("timestamp", .num h.timestamp)]

/-- The JS object for a `VocabularyItem`, with the property order of
`addToVocabulary`. -/
def VocabularyItem.toJson (v : VocabularyItem) : Json :=
  .obj ([("id", .str v.id), ("original", .str v.original),
         ("better", .str v.better), ("reason", .str v.reason)]
        ++ optStrField "context" v.context
        ++ optStrField "meaning" v.meaning
        ++ [("timestamp", .num v.timestamp)])

/-- The JS object for an `AIConfig`, with the property order of
`DEFAULT_CONFIG`. -/
def AIConfig.toJson (c : AIConfig) : Json :=
  .obj ([("useCustom", .bool c.useCustom),
         ("selectedPresetId", .str c.selectedPresetId)]
        ++ optStrField "customBaseUrl" c.customBaseUrl
        ++ optStrField "customApiKey" c.customApiKey
        ++ optStrField "customModelName" c.customModelName
        ++ optStrField "provider" c.provider
        ++ optStrField "customAnalysisPrompt" c.customAnalysisPrompt)

/-- The save effect `useEffect(() => localStorage.setItem('echoLoopHistory',
JSON.stringify(history)), [history])`, run after every change of `history`. -/
def persistHistory (history : List HistoryItem) (ls : LocalStorage) : LocalStorage :=
  setItem ls "echoLoopHistory" (Json.render (.arr (history.map HistoryItem.toJson)))

/-- The save effect for `vocabulary` under `'echoLoopVocabulary'`. -/
def persistVocabulary (vocabulary : List VocabularyItem) (ls : LocalStorage) : LocalStorage :=
  setItem ls "echoLoopVocabulary" (Json.render (.arr (vocabulary.map VocabularyItem.toJson)))

/-- The save effect for `aiConfig` under `'echoLoopConfig'`. -/
def persistConfig (aiConfig : AIConfig) (ls : LocalStorage) : LocalStorage :=
  setItem ls "echoLoopConfig" (Json.render aiConfig.toJson)

/-- The lazy `useState` initializer shared by `history` and `vocabulary`:
`saved ? JSON.parse(saved) : []` inside `try`, with `[]` returned from the
`catch`.  A missing key, an empty stored string (falsy) and a parse failure
all yield the empty array. -/
def initFromStorage (ls : LocalStorage) (key : String) : Json :=
  match ls key with
  | none => .arr []
  | some saved =>
      if saved = "" then .arr []
      else
        match Json.parse saved with
        | some j => j
        | none => .arr []

/-- The `history` initializer reads `'echoLoopHistory'`. -/
def initHistory (ls : LocalStorage) : Json := initFromStorage ls "echoLoopHistory"

/-- The `vocabulary` initializer reads `'echoLoopVocabulary'`. -/
def initVocabulary (ls : LocalStorage) : Json := initFromStorage ls "echoLoopVocabulary"

/-- `s.toLowerCase()` (ASCII case folding). -/
def jsToLower (s : String) : String := String.mk (s.data.map Char.toLower)

/-- `hay.includes(needle)`: some suffix of `hay` starts with `needle`. -/
def jsIncludes (hay needle : String) : Bool :=
  (List.range (hay.data.length + 1)).any (fun i => needle.data.isPrefixOf (hay.data.drop i))

/-- `filteredVocabulary` of the LibraryModal: case-insensitive substring
search over `original` and `better`. -/
def filteredVocabulary (vocabulary : List VocabularyItem) (searchTerm : String) :
    List VocabularyItem :=
  vocabulary.filter (fun v =>
    jsIncludes (jsToLower v.original) (jsToLower searchTerm)
    || jsIncludes (jsToLower v.better) (jsToLower searchTerm))

/-- `nextCard` of the LibraryModal: advance cyclically through the filtered
vocabulary, unflip the card and clear the input. -/
def nextCard (vocabulary : List VocabularyItem) (st : LibState) : LibState :=
  { st with isFlipped := false,
            reviewIndex := jsMod (st.reviewIndex + 1)
              ((filteredVocabulary vocabulary st.searchTerm).length : Int),
            reviewInput := "" }

/-- `prevCard` of the LibraryModal: step back cyclically
(`(prev - 1 + length) % length`). -/
def prevCard (vocabulary : List VocabularyItem) (st : LibState) : LibState :=
  { st with isFlipped := false,
            reviewIndex := jsMod (st.reviewIndex - 1
                + ((filteredVocabulary vocabulary st.searchTerm).length : Int))
              ((filteredVocabulary vocabulary st.searchTerm).length : Int),
            reviewInput := "" }

/-- `jsMod` of a nonnegative dividend is the Euclidean remainder. -/
theorem jsMod_of_nonneg (a b : Int) (h : 0 ≤ a) : jsMod a b = a % b := by
  simp [jsMod, h]

/-- Stepping forward then backward through `n` cards returns to the same
index. -/
theorem next_prev_index (n i : Int) (hn : 0 < n) (h0 : 0 ≤ i) (hi : i < n) :
    jsMod (jsMod (i + 1) n - 1 + n) n = i := by
  rw [jsMod_of_nonneg (i + 1) n (by omega)]
  by_cases hc : i + 1 < n
  · rw [Int.emod_eq_of_lt (by omega) hc]
    rw [jsMod_of_nonneg _ _ (by omega)]
    have e : i + 1 - 1 + n = i + 1 * n := by ring
    rw [e, Int.add_mul_emod_self, Int.emod_eq_of_lt h0 hi]
  · have e : i + 1 = n := by omega
    rw [e, Int.emod_self]
    rw [jsMod_of_nonneg _ _ (by omega)]
    have e2 : (0 : Int) - 1 + n = n - 1 := by ring
    rw [e2, Int.emod_eq_of_lt (by omega) (by omega)]
    omega

/-- Stepping backward then forward through `n` cards returns to the same
index. -/
theorem prev_next_index (n i : Int) (hn : 0 < n) (h0 : 0 ≤ i) (hi : i < n) :
    jsMod (jsMod (i - 1 + n) n + 1) n = i := by
  rw [jsMod_of_nonneg (i - 1 + n) n (by omega)]
  by_cases hz : i = 0
  · subst hz
    have e : (0 : Int) - 1 + n = n - 1 := by ring
    rw [e, Int.emod_eq_of_lt (by omega) (by omega)]
    have e2 : n - 1 + 1 = n := by ring
    rw [e2, jsMod_of_nonneg n n (by omega), Int.emod_self]
  · have e : i - 1 + n = (i - 1) + 1 * n := by ring
    rw [e, Int.add_mul_emod_self, Int.emod_eq_of_lt (by omega) (by omega)]
    have e2 : i - 1 + 1 = i := by ring
    rw [e2, jsMod_of_nonneg i n h0, Int.emod_eq_of_lt h0 hi]

/-- `jsMod` with a positive modulus and nonnegative dividend stays in
`[0, n)`. -/
theorem jsMod_bounds (a n : Int) (hn : 0 < n) (ha : 0 ≤ a) :
    0 ≤ jsMod a n ∧ jsMod a n < n := by
  rw [jsMod_of_nonneg _ _ ha]
  exact ⟨Int.emod_nonneg a (by omega), Int.emod_lt_of_pos a hn⟩

/-- Every existing item survives the import merge. -/
theorem mergeById_mem_of_mem_prev {α : Type} (idOf : α → String)
    (imported prev : List α) (x : α) (hx : x ∈ prev) :
    x ∈ mergeById idOf imported prev :=
  List.mem_append_right _ hx

/-- Every item of the merged list is an old item or an imported item whose
id was not already present. -/
theorem mergeById_mem_cases {α : Type} (idOf : α → String)
    (imported prev : List α) (x : α) (hx : x ∈ mergeById idOf imported prev) :
    x ∈ prev ∨ (x ∈ imported ∧ idOf x ∉ prev.map idOf) := by
  simp only [mergeById] at hx
  rcases List.mem_append.mp hx with h | h
  · rcases List.mem_filter.mp h with ⟨hmem, hfilt⟩
    refine Or.inr ⟨hmem, ?_⟩
    simpa using hfilt
  · exact Or.inl h

/-- If ids were pairwise distinct on both sides, they are pairwise distinct
after the merge. -/
theorem mergeById_nodup {α : Type} (idOf : α → String) (imported prev : List α)
    (h1 : (prev.map idOf).Nodup) (h2 : (imported.map idOf).Nodup) :
    ((mergeById idOf imported prev).map idOf).Nodup := by
  simp only [mergeById]
  rw [List.map_append, List.nodup_append]
  refine ⟨List.Nodup.sublist ((List.filter_sublist _).map idOf) h2, h1, ?_⟩
  intro a ha hb
  rcases List.mem_map.mp ha with ⟨x, hxmem, hxid⟩
  rcases List.mem_filter.mp hxmem with ⟨_, hfilt⟩
  have : idOf x ∉ prev.map idOf := by simpa using hfilt
  exact this (hxid ▸ hb)

/-- Claim C8: in vocabulary review mode, for every filtered vocabulary list
of length at least one and every review index inside `[0, n)`, `nextCard`
followed by `prevCard` (and `prevCard` followed by `nextCard`) restores the
review index, and each single step keeps the index inside `[0, n)`. -/
theorem review_cycle_c8 (vocab : List VocabularyItem) (st : LibState)
    (hn : 1 ≤ (filteredVocabulary vocab st.searchTerm).length)
    (h0 : 0 ≤ st.reviewIndex)
    (hi : st.reviewIndex < ((filteredVocabulary vocab st.searchTerm).length : Int)) :
    (prevCard vocab (nextCard vocab st)).reviewIndex = st.reviewIndex ∧
    (nextCard vocab (prevCard vocab st)).reviewIndex = st.reviewIndex ∧
    (0 ≤ (nextCard vocab st).reviewIndex ∧
      (nextCard vocab st).reviewIndex < ((filteredVocabulary vocab st.searchTerm).length : Int)) ∧
    (0 ≤ (prevCard vocab st).reviewIndex ∧
      (prevCard vocab st).reviewIndex < ((filteredVocabulary vocab st.searchTerm).length : Int)) := by
  have hn' : (0 : Int) < ((filteredVocabulary vocab st.searchTerm).length : Int) := by
    omega
  refine ⟨?_, ?_, ?_, ?_⟩
  · simpa [nextCard, prevCard] using
      next_prev_index ((filteredVocabulary vocab st.searchTerm).length : Int)
        st.reviewIndex hn' h0 hi
  · simpa [nextCard, prevCard] using
      prev_next_index ((filteredVocabulary vocab st.searchTerm).length : Int)
        st.reviewIndex hn' h0 hi
  · simpa [nextCard] using
      jsMod_bounds (st.reviewIndex + 1)
        ((filteredVocabulary vocab st.searchTerm).length : Int) hn' (by omega)
  · simpa [prevCard] using
      jsMod_bounds (st.reviewIndex - 1 + ((filteredVocabulary vocab st.searchTerm).length : Int))
        ((filteredVocabulary vocab st.searchTerm).length : Int) hn' (by omega)

/-- A one-item vocabulary used to instantiate C8. -/
def c8Vocab : List VocabularyItem :=
  [⟨"1", "make a plan", "draw up a plan", "collocation", none, none, 0⟩]

/-- Witness instantiating `review_cycle_c8` at a concrete one-card review. -/
theorem review_cycle_c8_witness :
    (prevCard c8Vocab (nextCard c8Vocab initialLibState)).reviewIndex = 0 ∧
    (nextCard c8Vocab (prevCard c8Vocab initialLibState)).reviewIndex = 0 ∧
    (0 ≤ (nextCard c8Vocab initialLibState).reviewIndex ∧
      (nextCard c8Vocab initialLibState).reviewIndex < 1) ∧
    (0 ≤ (prevCard c8Vocab initialLibState).reviewIndex ∧
      (prevCard c8Vocab initialLibState).reviewIndex < 1) :=
  review_cycle_c8 c8Vocab initialLibState (by decide) (by decide) (by decide)

/-- Claim C9: `handleImportData` merges without loss or duplication — every
item present before the import is still present, only imported items with a
fresh id are added, and pairwise-distinct ids stay pairwise distinct. -/
theorem import_merge_c9 (s : AppState) (importedHistory : List HistoryItem)
    (importedVocabulary : List VocabularyItem) :
    (∀ x ∈ s.history, x ∈ (handleImportData s importedHistory importedVocabulary).history) ∧
    (∀ x ∈ (handleImportData s importedHistory importedVocabulary).history,
        x ∈ s.history ∨ (x ∈ importedHistory ∧
          HistoryItem.id x ∉ s.history.map HistoryItem.id)) ∧
    ((s.history.map HistoryItem.id).Nodup → (importedHistory.map HistoryItem.id).Nodup →
        ((handleImportData s importedHistory importedVocabulary).history.map
          HistoryItem.id).Nodup) ∧
    (∀ x ∈ s.vocabulary,
        x ∈ (handleImportData s importedHistory importedVocabulary).vocabulary) ∧
    (∀ x ∈ (handleImportData s importedHistory importedVocabulary).vocabulary,
        x ∈ s.vocabulary ∨ (x ∈ importedVocabulary ∧
          VocabularyItem.id x ∉ s.vocabulary.map VocabularyItem.id)) ∧
    ((s.vocabulary.map VocabularyItem.id).Nodup →
      (importedVocabulary.map VocabularyItem.id).Nodup →
        ((handleImportData s importedHistory importedVocabulary).vocabulary.map
          VocabularyItem.id).Nodup) := by
  refine ⟨?_, ?_, ?_, ?_, ?_, ?_⟩
  · intro x hx
    exact mergeById_mem_of_mem_prev HistoryItem.id importedHistory s.history x hx
  · intro x hx
    exact mergeById_mem_cases HistoryItem.id importedHistory s.history x hx
  · intro h1 h2
    exact mergeById_nodup HistoryItem.id importedHistory s.history h1 h2
  · intro x hx
    exact mergeById_mem_of_mem_prev VocabularyItem.id importedVocabulary s.vocabulary x hx
  · intro x hx
    exact mergeById_mem_cases VocabularyItem.id importedVocabulary s.vocabulary x hx
  · intro h1 h2
    exact mergeById_nodup VocabularyItem.id importedVocabulary s.vocabulary h1 h2

/-- A state with one history item and one vocabulary item, to instantiate
C9. -/
def c9State : AppState :=
  { initialState with
      history := [⟨"10", "Old text.", "Old back.", 80, "fine", 10⟩],
      vocabulary := [⟨"20", "a", "b", "r", none, none, 20⟩] }

/-- Imported lists for the C9 witness: one duplicate id and one fresh id. -/
def c9ImportedHistory : List HistoryItem :=
  [⟨"10", "Other text.", "Other back.", 50, "dup", 11⟩,
   ⟨"11", "New text.", "New back.", 90, "new", 12⟩]

/-- Imported vocabulary for the C9 witness. -/
def c9ImportedVocabulary : List VocabularyItem :=
  [⟨"21", "c", "d", "r2", some "ctx", none, 21⟩]

/-- Witness instantiating `import_merge_c9` on concrete lists and
discharging its distinctness hypotheses. -/
theorem import_merge_c9_witness :
    ((handleImportData c9State c9ImportedHistory c9ImportedVocabulary).history.map
      HistoryItem.id).Nodup ∧
    ((handleImportData c9State c9ImportedHistory c9ImportedVocabulary).vocabulary.map
      VocabularyItem.id).Nodup ∧
    (⟨"10", "Old text.", "Old back.", 80, "fine", 10⟩ : HistoryItem)
      ∈ (handleImportData c9State c9ImportedHistory c9ImportedVocabulary).history := by
  have h := import_merge_c9 c9State c9ImportedHistory c9ImportedVocabulary
  refine ⟨h.2.2.1 (by decide) (by decide), h.2.2.2.2.2 (by decide) (by decide), ?_⟩
  exact h.1 _ (by decide)

/-- Claim C10: `handleReset` clears only the practice session — step back to
`INPUT_SOURCE`, texts emptied, analysis and error cleared — while history,
vocabulary, AI config, native language and the library/review state are
unchanged. -/
theorem reset_frame_c10 (s : AppState) :
    (handleReset s).step = .INPUT_SOURCE ∧
    (handleReset s).sourceText = "" ∧
    (handleReset s).translatedText = .str "" ∧
    (handleReset s).backTranslation = "" ∧
    (handleReset s).analysis = none ∧
    (handleReset s).error = none ∧
    (handleReset s).history = s.history ∧
    (handleReset s).vocabulary = s.vocabulary ∧
    (handleReset s).aiConfig = s.aiConfig ∧
    (handleReset s).nativeLanguage = s.nativeLanguage ∧
    (handleReset s).library = s.library ∧
    (handleReset s).showLibrary = s.showLibrary ∧
    (handleReset s).recentlySavedVocab = s.recentlySavedVocab :=
  ⟨rfl, rfl, rfl, rfl, rfl, rfl, rfl, rfl, rfl, rfl, rfl, rfl, rfl⟩

/-- Claim C6: the step state follows the back-translation workflow — from
`INPUT_SOURCE`, `handleStartPractice` records `TRANSLATING_TO_TARGET` and
then, on success, `PRACTICE_BACK_TRANSLATION` (on failure, `INPUT_SOURCE`
again with an error set); from `PRACTICE_BACK_TRANSLATION`,
`handleSubmitBackTranslation` records `ANALYZING` and then `RESULTS` on
success (on failure, `PRACTICE_BACK_TRANSLATION` with an error set); and no
transition of either handler reaches any step outside these sets.  The
source guards both handlers on a non-blank input text. -/
theorem step_machine_c6 :
    (∀ (s : AppState) (text : String) (v : Json),
        s.step = .INPUT_SOURCE → jsTrim s.sourceText ≠ "" →
        serviceReplyValue s.sourceText text = some v →
          (handleStartPractice s (.reply text)).2
              = [.TRANSLATING_TO_TARGET, .PRACTICE_BACK_TRANSLATION] ∧
            (handleStartPractice s (.reply text)).1.step = .PRACTICE_BACK_TRANSLATION) ∧
    (∀ (s : AppState) (text : String),
        s.step = .INPUT_SOURCE → jsTrim s.sourceText ≠ "" →
        serviceReplyValue s.sourceText text = none →
          (handleStartPractice s (.reply text)).2
              = [.TRANSLATING_TO_TARGET, .INPUT_SOURCE] ∧
            (handleStartPractice s (.reply text)).1.step = .INPUT_SOURCE ∧
            (handleStartPractice s (.reply text)).1.error
              = some "Failed to generate translation. Please check your configuration and connection.") ∧
    (∀ (s : AppState),
        s.step = .INPUT_SOURCE → jsTrim s.sourceText ≠ "" →
          (handleStartPractice s .fail).2 = [.TRANSLATING_TO_TARGET, .INPUT_SOURCE] ∧
            (handleStartPractice s .fail).1.step = .INPUT_SOURCE ∧
            (handleStartPractice s .fail).1.error
              = some "Failed to generate translation. Please check your configuration and connection.") ∧
    (∀ (s : AppState) (r : AnalysisResult) (now : Int),
        s.step = .PRACTICE_BACK_TRANSLATION → jsTrim s.backTranslation ≠ "" →
          (handleSubmitBackTranslation s (.ok r) now).2 = [.ANALYZING, .RESULTS] ∧
            (handleSubmitBackTranslation s (.ok r) now).1.step = .RESULTS) ∧
    (∀ (s : AppState) (now : Int),
        s.step = .PRACTICE_BACK_TRANSLATION → jsTrim s.backTranslation ≠ "" →
          (handleSubmitBackTranslation s .fail now).2
              = [.ANALYZING, .PRACTICE_BACK_TRANSLATION] ∧
            (handleSubmitBackTranslation s .fail now).1.step = .PRACTICE_BACK_TRANSLATION ∧
            (handleSubmitBackTranslation s .fail now).1.error
              = some "Failed to analyze your translation. Check your configuration.") ∧
    (∀ (s : AppState) (o : TransOutcome),
        ∀ st ∈ (handleStartPractice s o).2,
          st = .TRANSLATING_TO_TARGET ∨ st = .PRACTICE_BACK_TRANSLATION ∨
            st = .INPUT_SOURCE) ∧
    (∀ (s : AppState) (o : AnalysisOutcome) (now : Int),
        ∀ st ∈ (handleSubmitBackTranslation s o now).2,
          st = .ANALYZING ∨ st = .RESULTS ∨ st = .PRACTICE_BACK_TRANSLATION) := by
  refine ⟨?_, ?_, ?_, ?_, ?_, ?_, ?_⟩
  · intro s text v _ hne hsv
    simp [handleStartPractice, hne, hsv]
  · intro s text _ hne hsv
    simp [handleStartPractice, hne, hsv]
  · intro s _ hne
    simp [handleStartPractice, hne]
  · intro s r now _ hne
    simp [handleSubmitBackTranslation, hne]
  · intro s now _ hne
    simp [handleSubmitBackTranslation, hne]
  · intro s o st hst
    unfold handleStartPractice at hst
    by_cases hb : jsTrim s.sourceText = ""
    · simp [hb] at hst
    · cases o with
      | reply text =>
        cases hsv : serviceReplyValue s.sourceText text with
        | some v => simp [hb, hsv] at hst; tauto
        | none => simp [hb, hsv] at hst; tauto
      | fail => simp [hb] at hst; tauto
  · intro s o now st hst
    unfold handleSubmitBackTranslation at hst
    by_cases hb : jsTrim s.backTranslation = ""
    · simp [hb] at hst
    · cases o with
      | ok r => simp [hb] at hst; tauto
      | fail => simp [hb] at hst; tauto

/-- A state sitting at `INPUT_SOURCE` with a one-sentence source text, used
by the C6 and C1 witnesses. -/
def c1State : AppState := { initialState with sourceText := "Hello world." }

/-- A well-formed AI reply for the C6 and C1 witnesses. -/
def c1Reply : String :=
  "\x7b\"fullTranslation\":\"Bonjour le monde.\",\"sentencePairs\":[\x7b\"index\":1,\"source\":\"Hello world.\",\"target\":\"Bonjour le monde.\"\x7d]\x7d"

/-- Witness instantiating `step_machine_c6` on a concrete successful run of
both handlers. -/
theorem step_machine_c6_witness :
    ((handleStartPractice c1State (.reply c1Reply)).2
        = [.TRANSLATING_TO_TARGET, .PRACTICE_BACK_TRANSLATION] ∧
      (handleStartPractice c1State (.reply c1Reply)).1.step = .PRACTICE_BACK_TRANSLATION) ∧
    ((handleSubmitBackTranslation
          { c1State with step := .PRACTICE_BACK_TRANSLATION, backTranslation := "Hello world." }
          (.ok ⟨95, "good", [], []⟩) 0).2 = [.ANALYZING, .RESULTS] ∧
      (handleSubmitBackTranslation
          { c1State with step := .PRACTICE_BACK_TRANSLATION, backTranslation := "Hello world." }
          (.ok ⟨95, "good", [], []⟩) 0).1.step = .RESULTS) := by
  have h := step_machine_c6
  exact ⟨h.1 c1State c1Reply
           (Json.obj
             [("fullTranslation", Json.str "Bonjour le monde."),
              ("sentencePairs", Json.arr
                [Json.obj [("index", Json.num 1), ("source", Json.str "Hello world."),
                           ("target", Json.str "Bonjour le monde.")]])])
           rfl (by decide) rfl,
         h.2.2.2.1 _ ⟨95, "good", [], []⟩ 0 rfl (by decide)⟩

/-- Claim C7: each save effect writes the JSON serialization of its state
under its own key (`'echoLoopHistory'`, `'echoLoopVocabulary'`,
`'echoLoopConfig'`) and touches no other key; at startup, `history` and
`vocabulary` are initialized from their keys, and an absent or unparseable
stored value yields the empty list rather than an error. -/
theorem persistence_c7 :
    (∀ (h : List HistoryItem) (ls : LocalStorage),
        persistHistory h ls "echoLoopHistory"
            = some (Json.render (.arr (h.map HistoryItem.toJson))) ∧
          ∀ k, k ≠ "echoLoopHistory" → persistHistory h ls k = ls k) ∧
    (∀ (v : List VocabularyItem) (ls : LocalStorage),
        persistVocabulary v ls "echoLoopVocabulary"
            = some (Json.render (.arr (v.map VocabularyItem.toJson))) ∧
          ∀ k, k ≠ "echoLoopVocabulary" → persistVocabulary v ls k = ls k) ∧
    (∀ (c : AIConfig) (ls : LocalStorage),
        persistConfig c ls "echoLoopConfig" = some (Json.render c.toJson) ∧
          ∀ k, k ≠ "echoLoopConfig" → persistConfig c ls k = ls k) ∧
    (∀ ls : LocalStorage, ls "echoLoopHistory" = none → initHistory ls = .arr []) ∧
    (∀ (ls : LocalStorage) (s : String),
        ls "echoLoopHistory" = some s → Json.parse s = none → initHistory ls = .arr []) ∧
    (∀ (ls : LocalStorage) (s : String) (j : Json),
        ls "echoLoopHistory" = some s → s ≠ "" → Json.parse s = some j →
          initHistory ls = j) ∧
    (∀ ls : LocalStorage, ls "echoLoopVocabulary" = none → initVocabulary ls = .arr []) ∧
    (∀ (ls : LocalStorage) (s : String),
        ls "echoLoopVocabulary" = some s → Json.parse s = none →
          initVocabulary ls = .arr []) ∧
    (∀ (ls : LocalStorage) (s : String) (j : Json),
        ls "echoLoopVocabulary" = some s → s ≠ "" → Json.parse s = some j →
          initVocabulary ls = j) := by
  refine ⟨?_, ?_, ?_, ?_, ?_, ?_, ?_, ?_, ?_⟩
  · intro h ls
    exact ⟨by simp [persistHistory, setItem], fun k hk => by simp [persistHistory, setItem, hk]⟩
  · intro v ls
    exact ⟨by simp [persistVocabulary, setItem],
           fun k hk => by simp [persistVocabulary, setItem, hk]⟩
  · intro c ls
    exact ⟨by simp [persistConfig, setItem], fun k hk => by simp [persistConfig, setItem, hk]⟩
  · intro ls h
    simp [initHistory, initFromStorage, h]
  · intro ls s hs hp
    by_cases hz : s = ""
    · simp [initHistory, initFromStorage, hs, hz]
    · simp [initHistory, initFromStorage, hs, hz, hp]
  · intro ls s j hs hz hp
    simp [initHistory, initFromStorage, hs, hz, hp]
  · intro ls h
    simp [initVocabulary, initFromStorage, h]
  · intro ls s hs hp
    by_cases hz : s = ""
    · simp [initVocabulary, initFromStorage, hs, hz]
    · simp [initVocabulary, initFromStorage, hs, hz, hp]
  · intro ls s j hs hz hp
    simp [initVocabulary, initFromStorage, hs, hz, hp]

/-- The empty local storage, for the C7 witness. -/
def emptyStorage : LocalStorage := fun _ => none

/-- Witness instantiating `persistence_c7`: a one-item history is written
under its key, and the initializer of an empty storage yields the empty
array. -/
theorem persistence_c7_witness :
    persistHistory [⟨"1", "a", "b", 70, "s", 5⟩] emptyStorage "echoLoopHistory"
        = some "[\x7b\"id\":\"1\",\"sourceText\":\"a\",\"userBackTranslation\":\"b\",\"score\":70,\"summary\":\"s\",\"timestamp\":5\x7d]" ∧
    initHistory emptyStorage = .arr [] ∧
    initVocabulary (setItem emptyStorage "echoLoopVocabulary" "not json") = .arr [] := by
  have h := persistence_c7
  refine ⟨?_, h.2.2.2.1 emptyStorage rfl, ?_⟩
  · have h1 := (h.1 [⟨"1", "a", "b", 70, "s", 5⟩] emptyStorage).1
    rw [h1]
    rfl
  · exact h.2.2.2.2.2.2.2.1 (setItem emptyStorage "echoLoopVocabulary" "not json")
      "not json" rfl rfl

/-- `true` exactly on JS string values. -/
def isJsonStr : Json → Bool
  | .str _ => true
  | _ => false

/-- Claim C1 (code bug): on a successful run of `handleStartPractice` on the
non-blank source `"Hello world."`, `translatedText` is not set to the
translation string — `generateTargetTranslation` resolves with the whole
`{ fullTranslation, sentencePairs }` object and `handleStartPractice` stores
that object in the string-typed `translatedText` state, although the step
does advance to `PRACTICE_BACK_TRANSLATION`. -/
theorem translated_text_object_c1 :
    (handleStartPractice c1State (.reply c1Reply)).1.translatedText
        = Json.obj
            [("fullTranslation", Json.str "Bonjour le monde."),
             ("sentencePairs", Json.arr
               [Json.obj [("index", Json.num 1), ("source", Json.str "Hello world."),
                          ("target", Json.str "Bonjour le monde.")]])] ∧
    isJsonStr (handleStartPractice c1State (.reply c1Reply)).1.translatedText = false ∧
    (handleStartPractice c1State (.reply c1Reply)).1.step = .PRACTICE_BACK_TRANSLATION :=
  ⟨rfl, rfl, rfl⟩

namespace WebDav

/-- The single upstream request of the push branch. -/
def pushCall (cfg : WebDavCfg) (data : Option Json) : UpstreamCall :=
  ⟨"PUT", cfg.url,
   [("Authorization", basicAuth cfg.username cfg.password),
    ("Content-Type", "application/json")],
   some (Json.renderPretty (dataOrEmpty data))⟩

/-- The single upstream request of the pull branch. -/
def pullCall (cfg : WebDavCfg) : UpstreamCall :=
  ⟨"GET", cfg.url, [("Authorization", basicAuth cfg.username cfg.password)], none⟩

/-- A non-POST request is answered 405 without any upstream call. -/
theorem handlerOn_not_post (m : String) (b? : Option SyncBody) (up : UpstreamResult)
    (h : m ≠ "POST") :
    handlerOn m b? up = ⟨[], [⟨405, errBody "Method not allowed"⟩]⟩ := by
  unfold handlerOn
  have hM : (if m = "" then "GET" else m) ≠ "POST" := by
    by_cases h0 : m = "" <;> simp [h0, h]
  simp [hM]

/-- A POST without a body object is answered 400 (missing config). -/
theorem handlerOn_body_none (up : UpstreamResult) :
    handlerOn "POST" none up = ⟨[], [⟨400, errBody "Missing WebDAV configuration"⟩]⟩ := rfl

/-- A POST without a `webdav` object is answered 400 (missing config). -/
theorem handlerOn_webdav_none (b : SyncBody) (up : UpstreamResult) (hw : b.webdav = none) :
    handlerOn "POST" (some b) up = ⟨[], [⟨400, errBody "Missing WebDAV configuration"⟩]⟩ := by
  unfold handlerOn
  simp [hw]

/-- A POST whose `webdav` object has a falsy field is answered 400
(missing config). -/
theorem handlerOn_incomplete (b : SyncBody) (cfg : WebDavCfg) (up : UpstreamResult)
    (hw : b.webdav = some cfg)
    (hf : (cfg.url = "" || cfg.username = "" || cfg.password = "") = true) :
    handlerOn "POST" (some b) up = ⟨[], [⟨400, errBody "Missing WebDAV configuration"⟩]⟩ := by
  unfold handlerOn
  simp [hw, hf]

/-- The push branch always issues exactly its PUT call. -/
theorem handlerOn_push_calls (b : SyncBody) (cfg : WebDavCfg) (up : UpstreamResult)
    (hw : b.webdav = some cfg)
    (hf : (cfg.url = "" || cfg.username = "" || cfg.password = "") = false)
    (ha : b.action = some "push") :
    (handlerOn "POST" (some b) up).calls = [pushCall cfg b.data] := by
  unfold handlerOn
  cases up with
  | resp ok status statusText text =>
      cases ok <;> simp [hw, hf, ha, pushCall, basicAuth]
  | netErr m => simp [hw, hf, ha, pushCall, basicAuth]

/-- The pull branch always issues exactly its GET call. -/
theorem handlerOn_pull_calls (b : SyncBody) (cfg : WebDavCfg) (up : UpstreamResult)
    (hw : b.webdav = some cfg)
    (hf : (cfg.url = "" || cfg.username = "" || cfg.password = "") = false)
    (ha : b.action = some "pull") :
    (handlerOn "POST" (some b) up).calls = [pullCall cfg] := by
  unfold handlerOn
  have hp : b.action ≠ some "push" := by simp [ha]
  cases up with
  | resp ok status statusText text =>
      cases ok with
      | true =>
          cases hj : Json.parse text <;> simp [hw, hf, ha, hp, hj, pullCall, basicAuth]
      | false => simp [hw, hf, ha, hp, pullCall, basicAuth]
  | netErr m => simp [hw, hf, ha, hp, pullCall, basicAuth]

/-- A POST with a complete config but an unknown action is answered 400
(invalid action) without any upstream call. -/
theorem handlerOn_invalid_action (b : SyncBody) (cfg : WebDavCfg) (up : UpstreamResult)
    (hw : b.webdav = some cfg)
    (hf : (cfg.url = "" || cfg.username = "" || cfg.password = "") = false)
    (hp : b.action ≠ some "push") (hq : b.action ≠ some "pull") :
    handlerOn "POST" (some b) up = ⟨[], [⟨400, errBody "Invalid action"⟩]⟩ := by
  unfold handlerOn
  simp [hw, hf, hp, hq]

/-- Push with an `ok` upstream response: 200 `{success: true}`. -/
theorem handlerOn_push_ok (b : SyncBody) (cfg : WebDavCfg) (status : Int)
    (statusText text : String) (hw : b.webdav = some cfg)
    (hf : (cfg.url = "" || cfg.username = "" || cfg.password = "") = false)
    (ha : b.action = some "push") :
    (handlerOn "POST" (some b) (.resp true status statusText text)).writes
      = [⟨200, .obj [("success", .bool true)]⟩] := by
  unfold handlerOn
  simp [hw, hf, ha]

/-- Push with a non-ok upstream response: a single 500 with the upload
failure message. -/
theorem handlerOn_push_notok (b : SyncBody) (cfg : WebDavCfg) (status : Int)
    (statusText text : String) (hw : b.webdav = some cfg)
    (hf : (cfg.url = "" || cfg.username = "" || cfg.password = "") = false)
    (ha : b.action = some "push") :
    (handlerOn "POST" (some b) (.resp false status statusText text)).writes
      = [⟨500, errBody ("WebDAV upload failed: " ++ toString status ++ " " ++ statusText)⟩] := by
  unfold handlerOn
  simp [hw, hf, ha]

/-- Push with a rejected fetch: a single 500 with the error message. -/
theorem handlerOn_push_err (b : SyncBody) (cfg : WebDavCfg) (m : String)
    (hw : b.webdav = some cfg)
    (hf : (cfg.url = "" || cfg.username = "" || cfg.password = "") = false)
    (ha : b.action = some "push") :
    (handlerOn "POST" (some b) (.netErr m)).writes = [⟨500, errBody (jsErrMessage m)⟩] := by
  unfold handlerOn
  simp [hw, hf, ha]

/-- Pull with an `ok` response whose body parses: 200 `{success, data}`. -/
theorem handlerOn_pull_ok (b : SyncBody) (cfg : WebDavCfg) (status : Int)
    (statusText text : String) (j : Json) (hw : b.webdav = some cfg)
    (hf : (cfg.url = "" || cfg.username = "" || cfg.password = "") = false)
    (ha : b.action = some "pull") (hj : Json.parse text = some j) :
    (handlerOn "POST" (some b) (.resp true status statusText text)).writes
      = [⟨200, .obj [("success", .bool true), ("data", j)]⟩] := by
  unfold handlerOn
  have hp : b.action ≠ some "push" := by simp [ha]
  simp [hw, hf, ha, hp, hj]

/-- Pull with an `ok` response whose body does not parse: a single 500 with
`'Invalid JSON from WebDAV'`. -/
theorem handlerOn_pull_badjson (b : SyncBody) (cfg : WebDavCfg) (status : Int)
    (statusText text : String) (hw : b.webdav = some cfg)
    (hf : (cfg.url = "" || cfg.username = "" || cfg.password = "") = false)
    (ha : b.action = some "pull") (hj : Json.parse text = none) :
    (handlerOn "POST" (some b) (.resp true status statusText text)).writes
      = [⟨500, errBody "Invalid JSON from WebDAV"⟩] := by
  unfold handlerOn
  have hp : b.action ≠ some "push" := by simp [ha]
  simp [hw, hf, ha, hp, hj]

/-- Pull with a non-ok upstream response: a single 500 with the download
failure message. -/
theorem handlerOn_pull_notok (b : SyncBody) (cfg : WebDavCfg) (status : Int)
    (statusText text : String) (hw : b.webdav = some cfg)
    (hf : (cfg.url = "" || cfg.username = "" || cfg.password = "") = false)
    (ha : b.action = some "pull") :
    (handlerOn "POST" (some b) (.resp false status statusText text)).writes
      = [⟨500, errBody ("WebDAV download failed: " ++ toString status ++ " " ++ statusText)⟩] := by
  unfold handlerOn
  have hp : b.action ≠ some "push" := by simp [ha]
  simp [hw, hf, ha, hp]

/-- Pull with a rejected fetch: a single 500 with the error message. -/
theorem handlerOn_pull_err (b : SyncBody) (cfg : WebDavCfg) (m : String)
    (hw : b.webdav = some cfg)
    (hf : (cfg.url = "" || cfg.username = "" || cfg.password = "") = false)
    (ha : b.action = some "pull") :
    (handlerOn "POST" (some b) (.netErr m)).writes = [⟨500, errBody (jsErrMessage m)⟩] := by
  unfold handlerOn
  have hp : b.action ≠ some "push" := by simp [ha]
  simp [hw, hf, ha, hp]

/-- Componentwise characterization of a `HandlerOut`. -/
theorem handlerOutEq {x : HandlerOut} {c : List UpstreamCall} {w : List ResWrite}
    (h1 : x.calls = c) (h2 : x.writes = w) : x = ⟨c, w⟩ := by
  cases x
  cases h1
  cases h2
  rfl

/-- Exhaustive shape of a run: either no upstream call and one response, or
exactly one push/pull call (with its complete config) and one response. -/
theorem handlerOn_shape (m : String) (b? : Option SyncBody) (up : UpstreamResult) :
    (∃ w, handlerOn m b? up = ⟨[], [w]⟩) ∨
    (∃ b cfg w, b? = some b ∧ b.webdav = some cfg ∧
       (handlerOn m b? up = ⟨[pushCall cfg b.data], [w]⟩ ∨
        handlerOn m b? up = ⟨[pullCall cfg], [w]⟩)) := by
  by_cases hm : m = "POST"
  · subst hm
    cases b? with
    | none => exact Or.inl ⟨_, handlerOn_body_none up⟩
    | some b =>
      cases hw : b.webdav with
      | none => exact Or.inl ⟨_, handlerOn_webdav_none b up hw⟩
      | some cfg =>
        by_cases hf : (cfg.url = "" || cfg.username = "" || cfg.password = "") = true
        · exact Or.inl ⟨_, handlerOn_incomplete b cfg up hw hf⟩
        · have hf' : (cfg.url = "" || cfg.username = "" || cfg.password = "") = false := by
            simpa using hf
          by_cases ha : b.action = some "push"
          · refine Or.inr ⟨b, cfg, ?_, rfl, hw, ?_⟩
            · exact (handlerOn "POST" (some b) up).writes.getD 0 ⟨0, .null⟩
            · left
              have hc := handlerOn_push_calls b cfg up hw hf' ha
              cases up with
              | resp ok status statusText text =>
                  cases ok with
                  | true =>
                      rw [show (handlerOn "POST" (some b) (.resp true status statusText text)).writes.getD 0 ⟨0, .null⟩ = ⟨200, .obj [("success", .bool true)]⟩ from by
                        rw [handlerOn_push_ok b cfg status statusText text hw hf' ha]; rfl]
                      exact handlerOutEq hc (handlerOn_push_ok b cfg status statusText text hw hf' ha)
                  | false =>
                      rw [show (handlerOn "POST" (some b) (.resp false status statusText text)).writes.getD 0 ⟨0, .null⟩ = ⟨500, errBody ("WebDAV upload failed: " ++ toString status ++ " " ++ statusText)⟩ from by
                        rw [handlerOn_push_notok b cfg status statusText text hw hf' ha]; rfl]
                      exact handlerOutEq hc (handlerOn_push_notok b cfg status statusText text hw hf' ha)
              | netErr msg =>
                  rw [show (handlerOn "POST" (some b) (.netErr msg)).writes.getD 0 ⟨0, .null⟩ = ⟨500, errBody (jsErrMessage msg)⟩ from by
                    rw [handlerOn_push_err b cfg msg hw hf' ha]; rfl]
                  exact handlerOutEq hc (handlerOn_push_err b cfg msg hw hf' ha)
          · by_cases ha2 : b.action = some "pull"
            · refine Or.inr ⟨b, cfg, ?_, rfl, hw, ?_⟩
              · exact (handlerOn "POST" (some b) up).writes.getD 0 ⟨0, .null⟩
              · right
                have hc := handlerOn_pull_calls b cfg up hw hf' ha2
                cases up with
                | resp ok status statusText text =>
                    cases ok with
                    | true =>
                        cases hj : Json.parse text with
                        | some j =>
                            rw [show (handlerOn "POST" (some b) (.resp true status statusText text)).writes.getD 0 ⟨0, .null⟩ = ⟨200, .obj [("success", .bool true), ("data", j)]⟩ from by
                              rw [handlerOn_pull_ok b cfg status statusText text j hw hf' ha2 hj]; rfl]
                            exact handlerOutEq hc (handlerOn_pull_ok b cfg status statusText text j hw hf' ha2 hj)
                        | none =>
                            rw [show (handlerOn "POST" (some b) (.resp true status statusText text)).writes.getD 0 ⟨0, .null⟩ = ⟨500, errBody "Invalid JSON from WebDAV"⟩ from by
                              rw [handlerOn_pull_badjson b cfg status statusText text hw hf' ha2 hj]; rfl]
                            exact handlerOutEq hc (handlerOn_pull_badjson b cfg status statusText text hw hf' ha2 hj)
                    | false =>
                        rw [show (handlerOn "POST" (some b) (.resp false status statusText text)).writes.getD 0 ⟨0, .null⟩ = ⟨500, errBody ("WebDAV download failed: " ++ toString status ++ " " ++ statusText)⟩ from by
                          rw [handlerOn_pull_notok b cfg status statusText text hw hf' ha2]; rfl]
                        exact handlerOutEq hc (handlerOn_pull_notok b cfg status statusText text hw hf' ha2)
                | netErr msg =>
                    rw [show (handlerOn "POST" (some b) (.netErr msg)).writes.getD 0 ⟨0, .null⟩ = ⟨500, errBody (jsErrMessage msg)⟩ from by
                      rw [handlerOn_pull_err b cfg msg hw hf' ha2]; rfl]
                    exact handlerOutEq hc (handlerOn_pull_err b cfg msg hw hf' ha2)
            · exact Or.inl ⟨_, handlerOn_invalid_action b cfg up hw hf' ha ha2⟩
  · exact Or.inl ⟨_, handlerOn_not_post m b? up hm⟩

/-- Claim C2: for every accepted request (POST with complete webdav config),
the relay uses at most the two verbs PUT and GET — `push` issues exactly one
PUT whose body is `JSON.stringify(data ?? {}, null, 2)`, `pull` exactly one
GET — and every upstream request carries `Authorization: Basic` over the
base64 of `username:password`; no other verb is ever sent upstream. -/
theorem webdav_two_verbs_c2 :
    (∀ (req : Request) (up : UpstreamResult),
        ∀ c ∈ (handler req up).calls, c.method = "PUT" ∨ c.method = "GET") ∧
    (∀ (hdrs : List (String × String)) (b : SyncBody) (cfg : WebDavCfg)
        (up : UpstreamResult),
        b.webdav = some cfg → cfg.url ≠ "" → cfg.username ≠ "" → cfg.password ≠ "" →
          (b.action = some "push" →
              (handler ⟨"POST", some b, hdrs⟩ up).calls
                = [⟨"PUT", cfg.url,
                    [("Authorization", basicAuth cfg.username cfg.password),
                     ("Content-Type", "application/json")],
                    some (Json.renderPretty (dataOrEmpty b.data))⟩]) ∧
          (b.action = some "pull" →
              (handler ⟨"POST", some b, hdrs⟩ up).calls
                = [⟨"GET", cfg.url,
                    [("Authorization", basicAuth cfg.username cfg.password)], none⟩]) ∧
          (∀ c ∈ (handler ⟨"POST", some b, hdrs⟩ up).calls,
              ("Authorization", basicAuth cfg.username cfg.password) ∈ c.headers)) := by
  constructor
  · intro req up c hc
    have hc' : c ∈ (handlerOn req.method req.body up).calls := hc
    rcases handlerOn_shape req.method req.body up with ⟨w, he⟩ | ⟨b, cfg, w, hb, hw, he | he⟩
    · rw [he] at hc'
      simp at hc'
    · rw [he] at hc'
      simp at hc'
      subst hc'
      left
      rfl
    · rw [he] at hc'
      simp at hc'
      subst hc'
      right
      rfl
  · intro hdrs b cfg up hw h1 h2 h3
    have hf' : (cfg.url = "" || cfg.username = "" || cfg.password = "") = false := by
      simp [h1, h2, h3]
    refine ⟨fun ha => handlerOn_push_calls b cfg up hw hf' ha,
            fun ha => handlerOn_pull_calls b cfg up hw hf' ha, ?_⟩
    intro c hc
    have hc' : c ∈ (handlerOn "POST" (some b) up).calls := hc
    by_cases ha : b.action = some "push"
    · rw [handlerOn_push_calls b cfg up hw hf' ha] at hc'
      simp at hc'
      subst hc'
      simp [pushCall]
    · by_cases ha2 : b.action = some "pull"
      · rw [handlerOn_pull_calls b cfg up hw hf' ha2] at hc'
        simp at hc'
        subst hc'
        simp [pullCall]
      · rw [handlerOn_invalid_action b cfg up hw hf' ha ha2] at hc'
        simp at hc'

/-- The webdav config used by the concrete WebDAV witnesses. -/
def cfgEx : WebDavCfg := ⟨"https://dav.example/echo.json", "u", "p"⟩

/-- A complete push body used by the C2 witness. -/
def pushBodyEx : SyncBody := ⟨some "push", some cfgEx, some (.obj [("k", .str "v")])⟩

/-- Witness instantiating `webdav_two_verbs_c2`: the concrete PUT call of a
push, with its `Basic` credential and pretty-printed JSON body. -/
theorem webdav_two_verbs_c2_witness :
    (handler ⟨"POST", some pushBodyEx, []⟩ (.resp true 200 "OK" "")).calls
      = [⟨"PUT", "https://dav.example/echo.json",
          [("Authorization", "Basic dTpw"), ("Content-Type", "application/json")],
          some "\x7b\n  \"k\": \"v\"\n\x7d"⟩] :=
  (webdav_two_verbs_c2.2 [] pushBodyEx cfgEx (.resp true 200 "OK" "")
      rfl (by decide) (by decide) (by decide)).1 rfl

/-- Claim C3: the proxy is an unauthenticated pass-through — no caller
header is consulted, a request reaches upstream iff it is a POST whose
webdav config has non-empty url, username and password and whose action is
`push` or `pull`, and otherwise the handler answers 405 `Method not
allowed`, 400 `Missing WebDAV configuration` or 400 `Invalid action`
without any upstream call. -/
theorem webdav_gatekeeping_c3 :
    (∀ (req : Request) (up : UpstreamResult),
        (handler req up).calls ≠ [] ↔
          (req.method = "POST" ∧ ∃ b cfg, req.body = some b ∧ b.webdav = some cfg ∧
            cfg.url ≠ "" ∧ cfg.username ≠ "" ∧ cfg.password ≠ "" ∧
            (b.action = some "push" ∨ b.action = some "pull"))) ∧
    (∀ (req : Request) (up : UpstreamResult), req.method ≠ "POST" →
        handler req up = ⟨[], [⟨405, errBody "Method not allowed"⟩]⟩) ∧
    (∀ (req : Request) (up : UpstreamResult), req.method = "POST" → req.body = none →
        handler req up = ⟨[], [⟨400, errBody "Missing WebDAV configuration"⟩]⟩) ∧
    (∀ (req : Request) (up : UpstreamResult) (b : SyncBody),
        req.method = "POST" → req.body = some b → webdavMissing b.webdav = true →
        handler req up = ⟨[], [⟨400, errBody "Missing WebDAV configuration"⟩]⟩) ∧
    (∀ (req : Request) (up : UpstreamResult) (b : SyncBody),
        req.method = "POST" → req.body = some b → webdavMissing b.webdav = false →
        b.action ≠ some "push" → b.action ≠ some "pull" →
        handler req up = ⟨[], [⟨400, errBody "Invalid action"⟩]⟩) ∧
    (∀ (m : String) (b? : Option SyncBody) (hs1 hs2 : List (String × String))
        (up : UpstreamResult),
        handler ⟨m, b?, hs1⟩ up = handler ⟨m, b?, hs2⟩ up) := by
  refine ⟨?_, ?_, ?_, ?_, ?_, ?_⟩
  · intro req up
    obtain ⟨m, b?, hdrs⟩ := req
    constructor
    · intro hne
      by_cases hm : m = "POST"
      · subst hm
        cases b? with
        | none => exact absurd (congrArg HandlerOut.calls (handlerOn_body_none up)) hne
        | some b =>
          cases hw : b.webdav with
          | none => exact absurd (congrArg HandlerOut.calls (handlerOn_webdav_none b up hw)) hne
          | some cfg =>
            by_cases hf : (cfg.url = "" || cfg.username = "" || cfg.password = "") = true
            · exact absurd (congrArg HandlerOut.calls (handlerOn_incomplete b cfg up hw hf)) hne
            · have hf' : (cfg.url = "" || cfg.username = "" || cfg.password = "") = false := by
                simpa using hf
              have hsplit : cfg.url ≠ "" ∧ cfg.username ≠ "" ∧ cfg.password ≠ "" := by
                constructor
                · intro h
                  simp [h] at hf'
                constructor
                · intro h
                  simp [h] at hf'
                · intro h
                  simp [h] at hf'
              by_cases ha : b.action = some "push"
              · exact ⟨rfl, b, cfg, rfl, hw, hsplit.1, hsplit.2.1, hsplit.2.2, Or.inl ha⟩
              · by_cases ha2 : b.action = some "pull"
                · exact ⟨rfl, b, cfg, rfl, hw, hsplit.1, hsplit.2.1, hsplit.2.2, Or.inr ha2⟩
                · exact absurd
                    (congrArg HandlerOut.calls (handlerOn_invalid_action b cfg up hw hf' ha ha2))
                    hne
      · exact absurd (congrArg HandlerOut.calls (handlerOn_not_post m b? up hm)) hne
    · rintro ⟨hm, b, cfg, hb, hw, h1, h2, h3, ha | ha⟩ <;>
        (simp only at hm hb
         subst hm
         subst hb)
      · have hf' : (cfg.url = "" || cfg.username = "" || cfg.password = "") = false := by
          simp [h1, h2, h3]
        rw [show (handler ⟨"POST", some b, hdrs⟩ up).calls
              = (handlerOn "POST" (some b) up).calls from rfl,
            handlerOn_push_calls b cfg up hw hf' ha]
        simp
      · have hf' : (cfg.url = "" || cfg.username = "" || cfg.password = "") = false := by
          simp [h1, h2, h3]
        rw [show (handler ⟨"POST", some b, hdrs⟩ up).calls
              = (handlerOn "POST" (some b) up).calls from rfl,
            handlerOn_pull_calls b cfg up hw hf' ha]
        simp
  · intro req up hm
    exact handlerOn_not_post req.method req.body up hm
  · intro req up hm hb
    show handlerOn req.method req.body up = _
    rw [hm, hb]
    exact handlerOn_body_none up
  · intro req up b hm hb hmiss
    show handlerOn req.method req.body up = _
    rw [hm, hb]
    cases hw : b.webdav with
    | none => exact handlerOn_webdav_none b up hw
    | some cfg =>
        refine handlerOn_incomplete b cfg up hw ?_
        rw [hw] at hmiss; rw [webdavMissing] at hmiss
        exact hmiss
  · intro req up b hm hb hmiss hp hq
    show handlerOn req.method req.body up = _
    rw [hm, hb]
    cases hw : b.webdav with
    | none => rw [hw] at hmiss; rw [webdavMissing] at hmiss; exact absurd hmiss (by simp)
    | some cfg =>
        refine handlerOn_invalid_action b cfg up hw ?_ hp hq
        rw [hw] at hmiss; rw [webdavMissing] at hmiss
        exact hmiss
  · intro m b? hs1 hs2 up
    rfl

/-- Witness instantiating `webdav_gatekeeping_c3`: a GET is answered 405
with no upstream call, and a complete pull request does reach upstream. -/
theorem webdav_gatekeeping_c3_witness :
    handler ⟨"GET", none, []⟩ (.netErr "")
        = ⟨[], [⟨405, errBody "Method not allowed"⟩]⟩ ∧
    (handler ⟨"POST", some ⟨some "pull", some cfgEx, none⟩, []⟩
        (.resp true 200 "OK" "null")).calls ≠ [] := by
  constructor
  · exact webdav_gatekeeping_c3.2.1 ⟨"GET", none, []⟩ (.netErr "") (by decide)
  · exact (webdav_gatekeeping_c3.1 ⟨"POST", some ⟨some "pull", some cfgEx, none⟩, []⟩
        (.resp true 200 "OK" "null")).mpr
      ⟨rfl, ⟨some "pull", some cfgEx, none⟩, cfgEx, rfl, rfl,
       by decide, by decide, by decide, Or.inr rfl⟩

/-- Claim C4: no retry — every run issues at most one upstream fetch and
writes exactly one response; when the upstream response is not ok the single
response is a 500 with an error message, and a pull whose body is not valid
JSON is likewise answered once with 500 `Invalid JSON from WebDAV`, with no
second upstream request. -/
theorem webdav_no_retry_c4 :
    (∀ (req : Request) (up : UpstreamResult), (handler req up).calls.length ≤ 1) ∧
    (∀ (req : Request) (up : UpstreamResult), (handler req up).writes.length = 1) ∧
    (∀ (req : Request) (status : Int) (statusText text : String),
        (handler req (.resp false status statusText text)).calls ≠ [] →
          ∃ msg, (handler req (.resp false status statusText text)).writes
            = [⟨500, errBody msg⟩]) ∧
    (∀ (hdrs : List (String × String)) (b : SyncBody) (cfg : WebDavCfg) (status : Int)
        (statusText text : String),
        b.webdav = some cfg → cfg.url ≠ "" → cfg.username ≠ "" → cfg.password ≠ "" →
        b.action = some "pull" → Json.parse text = none →
          (handler ⟨"POST", some b, hdrs⟩ (.resp true status statusText text)).writes
              = [⟨500, errBody "Invalid JSON from WebDAV"⟩] ∧
            (handler ⟨"POST", some b, hdrs⟩
                (.resp true status statusText text)).calls.length = 1) := by
  refine ⟨?_, ?_, ?_, ?_⟩
  · intro req up
    rcases handlerOn_shape req.method req.body up with ⟨w, he⟩ | ⟨b, cfg, w, hb, hw, he | he⟩ <;>
      (show (handlerOn req.method req.body up).calls.length ≤ 1
       rw [he])
    · simp
    · simp
    · simp
  · intro req up
    rcases handlerOn_shape req.method req.body up with ⟨w, he⟩ | ⟨b, cfg, w, hb, hw, he | he⟩ <;>
      (show (handlerOn req.method req.body up).writes.length = 1
       rw [he])
    · simp
    · simp
    · simp
  · intro req status statusText text hne
    obtain ⟨m, b?, hdrs⟩ := req
    by_cases hm : m = "POST"
    · subst hm
      cases b? with
      | none =>
          exact absurd (congrArg HandlerOut.calls
            (handlerOn_body_none (.resp false status statusText text))) hne
      | some b =>
        cases hw : b.webdav with
        | none =>
            exact absurd (congrArg HandlerOut.calls
              (handlerOn_webdav_none b (.resp false status statusText text) hw)) hne
        | some cfg =>
          by_cases hf : (cfg.url = "" || cfg.username = "" || cfg.password = "") = true
          · exact absurd (congrArg HandlerOut.calls
              (handlerOn_incomplete b cfg (.resp false status statusText text) hw hf)) hne
          · have hf' : (cfg.url = "" || cfg.username = "" || cfg.password = "") = false := by
              simpa using hf
            by_cases ha : b.action = some "push"
            · exact ⟨"WebDAV upload failed: " ++ toString status ++ " " ++ statusText,
                handlerOn_push_notok b cfg status statusText text hw hf' ha⟩
            · by_cases ha2 : b.action = some "pull"
              · exact ⟨"WebDAV download failed: " ++ toString status ++ " " ++ statusText,
                  handlerOn_pull_notok b cfg status statusText text hw hf' ha2⟩
              · exact absurd (congrArg HandlerOut.calls
                  (handlerOn_invalid_action b cfg (.resp false status statusText text)
                    hw hf' ha ha2)) hne
    · exact absurd (congrArg HandlerOut.calls
        (handlerOn_not_post m b? (.resp false status statusText text) hm)) hne
  · intro hdrs b cfg status statusText text hw h1 h2 h3 ha hj
    have hf' : (cfg.url = "" || cfg.username = "" || cfg.password = "") = false := by
      simp [h1, h2, h3]
    constructor
    · exact handlerOn_pull_badjson b cfg status statusText text hw hf' ha hj
    · show (handlerOn "POST" (some b) (.resp true status statusText text)).calls.length = 1
      rw [handlerOn_pull_calls b cfg (.resp true status statusText text) hw hf' ha]
      rfl

/-- A complete pull body used by the C4 and C5 witnesses. -/
def pullBodyEx : SyncBody := ⟨some "pull", some cfgEx, none⟩

/-- Witness instantiating `webdav_no_retry_c4`: a pull whose upstream body
is not JSON is answered once with 500, after exactly one upstream call. -/
theorem webdav_no_retry_c4_witness :
    (handler ⟨"POST", some pullBodyEx, []⟩ (.resp true 200 "OK" "oops")).writes
        = [⟨500, errBody "Invalid JSON from WebDAV"⟩] ∧
    (handler ⟨"POST", some pullBodyEx, []⟩ (.resp true 200 "OK" "oops")).calls.length = 1 ∧
    (handler ⟨"GET", none, []⟩ (.netErr "down")).writes.length = 1 := by
  refine ⟨?_, ?_, webdav_no_retry_c4.2.1 ⟨"GET", none, []⟩ (.netErr "down")⟩
  · exact (webdav_no_retry_c4.2.2.2 [] pullBodyEx cfgEx 200 "OK" "oops"
      rfl (by decide) (by decide) (by decide) rfl rfl).1
  · exact (webdav_no_retry_c4.2.2.2 [] pullBodyEx cfgEx 200 "OK" "oops"
      rfl (by decide) (by decide) (by decide) rfl rfl).2

/-- Claim C5: the endpoint is stateless — the status codes, bodies and
upstream calls of a run are a function of the request's method and body and
of the upstream outcome alone; two runs agreeing on those agree on their
entire output. -/
theorem webdav_stateless_c5 (r1 r2 : Request) (up : UpstreamResult)
    (hm : r1.method = r2.method) (hb : r1.body = r2.body) :
    handler r1 up = handler r2 up := by
  show handlerOn r1.method r1.body up = handlerOn r2.method r2.body up
  rw [hm, hb]

/-- Witness instantiating `webdav_stateless_c5` on two requests that differ
only in their headers. -/
theorem webdav_stateless_c5_witness :
    handler ⟨"POST", some pullBodyEx, [("Cookie", "session=1")]⟩ (.resp true 200 "OK" "null")
      = handler ⟨"POST", some pullBodyEx, []⟩ (.resp true 200 "OK" "null") :=
  webdav_stateless_c5 ⟨"POST", some pullBodyEx, [("Cookie", "session=1")]⟩
    ⟨"POST", some pullBodyEx, []⟩ (.resp true 200 "OK" "null") rfl rfl

end WebDav

/-- Witness instantiating `reset_frame_c10` at a concrete mid-practice
state. -/
theorem reset_frame_c10_witness :
    (handleReset { c9State with step := .RESULTS, backTranslation := "b" }).step
        = .INPUT_SOURCE ∧
    (handleReset { c9State with step := .RESULTS, backTranslation := "b" }).history
      = c9State.history :=
  ⟨(reset_frame_c10 { c9State with step := .RESULTS, backTranslation := "b" }).1,
   (reset_frame_c10 { c9State with step := .RESULTS, backTranslation := "b" }).2.2.2.2.2.2.1⟩
